import Mathlib

/-!
SpineAPI — OpenAPI parser and IR builder: a shallow embedding.

This file embeds the core of `spineapi/parsers/openapi.py`: the classes
`ParsedEndpoint`, `ParsedSchema`, `ParsedSpec` and `OpenAPIParser`, and proves
properties of the embedding.

Modelling conventions:
* A loaded YAML/JSON document is a `Val`: a tree of scalars, sequences and
  mappings (Python object from `yaml.safe_load` / `json.load`).  Mappings are
  association lists in document (insertion) order, mirroring Python `dict`
  iteration order; a real `dict` has no duplicate keys and lookup is
  first-match.
* Python `dict.get(k)` / `dict.get(k, d)` become `Val.get?` / `Val.getD`.
  The source only calls `.get`/`.items()` on values that are mappings and
  iterates `list`s where the (validated) document guarantees a sequence, so
  `Val.get?`/`Val.items`/`Val.asArr` return the empty answer on other
  constructors.
* Python exceptions become `Except String`, the `String` being `str(e)` of the
  raised exception (for `ValueError(msg)` that is `msg`).  External
  collaborators (the filesystem, `yaml.safe_load`, `json.load`,
  `read_from_filename`, `validate_spec`) are modelled as explicit
  `Except String _` arguments carrying their outcome.
-/

namespace SpineAPI

/-!
Python string primitives.

The embedding uses its own executable character-list implementations of the
Python `str` methods the source calls (`lower`, `upper`, `replace`, `split`,
`join`, `startswith`, `endswith`), because the corresponding Lean `String`
library functions do not reduce in the kernel.  All strings the source
manipulates are treated per ASCII character, which is how Python behaves on
the identifiers involved.
-/

/-- Python `s.lower()` (ASCII). -/
def pyLower (s : String) : String :=
  String.mk (s.data.map Char.toLower)

/-- Python `s.upper()` (ASCII). -/
def pyUpper (s : String) : String :=
  String.mk (s.data.map Char.toUpper)

/-- When `pat` is a prefix of the list, return the remainder after it. -/
def stripPat : List Char → List Char → Option (List Char)
  | [], l => some l
  | _ :: _, [] => none
  | p :: ps, c :: cs => if p = c then stripPat ps cs else none

/-- Left-to-right, non-overlapping replacement of a non-empty pattern by
`rep`, Python `str.replace` on character lists.  `fuel` is an upper bound
on the number of steps (each step consumes at least one character); it is
instantiated with the list length. -/
def replaceFuel (pat rep : List Char) : Nat → List Char → List Char
  | _, [] => []
  | 0, l => l
  | fuel + 1, c :: rest =>
    match stripPat pat (c :: rest) with
    | some rem => rep ++ replaceFuel pat rep fuel rem
    | none => c :: replaceFuel pat rep fuel rest

/-- Python `s.replace(pat, rep)`.  The source only replaces non-empty
patterns; an empty pattern is returned unchanged. -/
def pyReplace (s pat rep : String) : String :=
  match pat.data with
  | [] => s
  | p :: ps => String.mk (replaceFuel (p :: ps) rep.data s.data.length s.data)

/-- Split a character list on a separator character. -/
def splitOnChar (sep : Char) : List Char → List (List Char)
  | [] => [[]]
  | x :: rest =>
    match splitOnChar sep rest with
    | [] => [[x]]
    | h :: t => if x = sep then [] :: h :: t else (x :: h) :: t

/-- Python `s.split(sep)` for a one-character separator (the source only
splits on `"/"`). -/
def pySplit (s : String) (sep : Char) : List String :=
  (splitOnChar sep s.data).map String.mk

/-- Concatenate with a separator between consecutive parts. -/
def joinSep (sep : List Char) : List (List Char) → List Char
  | [] => []
  | [x] => x
  | x :: y :: xs => x ++ sep ++ joinSep sep (y :: xs)

/-- Python `sep.join(parts)`. -/
def pyJoin (sep : String) (parts : List String) : String :=
  String.mk (joinSep sep.data (parts.map String.data))

/-- Python `s.startswith(pre)`. -/
def pyStartsWith (s pre : String) : Bool :=
  pre.data.isPrefixOf s.data

/-- Python `s.endswith(suf)`. -/
def pyEndsWith (s suf : String) : Bool :=
  suf.data.isSuffixOf s.data

/-- A deserialized YAML/JSON document value (output of `yaml.safe_load` /
`json.load`): scalar, sequence, or mapping in document order. -/
inductive Val where
  | str : String → Val
  | num : Int → Val
  | bool : Bool → Val
  | null : Val
  | arr : List Val → Val
  | obj : List (String × Val) → Val
deriving Repr

/-- First-match association-list lookup: Python `dict.__getitem__` /
`dict.get` on a mapping whose entries are listed in insertion order. -/
def alookup : List (String × Val) → String → Option Val
  | [], _ => none
  | (k, v) :: rest, key => if k = key then some v else alookup rest key

/-- Python `d.get(k)`: `some` the value when the key is present, `none`
otherwise.  The source only calls `.get` on mapping values. -/
def Val.get? : Val → String → Option Val
  | .obj kvs, k => alookup kvs k
  | _, _ => none

/-- Python `d.get(k, default)`. -/
def Val.getD (v : Val) (k : String) (d : Val) : Val :=
  (v.get? k).getD d

/-- Python `d.items()` on a mapping, in document order. -/
def Val.items : Val → List (String × Val)
  | .obj kvs => kvs
  | _ => []

/-- View a value the source iterates as a Python `list`. -/
def Val.asArr : Val → List Val
  | .arr xs => xs
  | _ => []

/-- Python `str(v)` as used by the f-string `f"List[{item_type}]"`.  The
claims only exercise it on `str` scalars and on the `"Any"` default; the
sequence/mapping cases are never reached there. -/
def Val.pystr : Val → String
  | .str s => s
  | .num n => toString n
  | .bool true => "True"
  | .bool false => "False"
  | .null => "None"
  | .arr _ => "<list>"
  | .obj _ => "<dict>"

/-- Embeds `ParsedEndpoint`: one parsed API endpoint (openapi.py lines 15–79). -/
structure ParsedEndpoint where
  path : String
  method : String
  operation_id : String
  summary : Option Val
  description : Option Val
  parameters : List Val
  request_body : Option Val
  responses : Val
  tags : Val
  security : Val
deriving Repr

/-- Embeds `ParsedEndpoint.__init__`: uppercases the method and applies the
`x or default` fallbacks for the optional arguments. -/
def ParsedEndpoint.make (path method operation_id : String)
    (summary description : Option Val)
    (parameters : Option (List Val)) (request_body : Option Val)
    (responses : Option Val) (tags security : Option Val) : ParsedEndpoint :=
  { path := path
    method := pyUpper method
    operation_id := operation_id
    summary := summary
    description := description
    parameters := parameters.getD []
    request_body := request_body
    responses := responses.getD (Val.obj [])
    tags := tags.getD (Val.arr [])
    security := security.getD (Val.arr []) }

/-- Embeds `ParsedEndpoint.function_name`: the derived implementation identifier.
Python truthiness of `self.operation_id` is non-emptiness of the string. -/
def ParsedEndpoint.function_name (e : ParsedEndpoint) : String :=
  if e.operation_id ≠ "" then
    pyReplace (pyLower e.operation_id) "-" "_"
  else
    let path_parts := (pySplit e.path '/').filter
      (fun p => !(p == "") && !(pyStartsWith p "\x7b"))
    pyLower e.method ++ "_" ++ pyJoin "_" path_parts

/-- Embeds `ParsedSchema`: one parsed data schema (openapi.py lines 82–144).  The
fields `properties`, `required_fields` and `schema_type` are computed in
`__init__` (see `ParsedSchema.make`). -/
structure ParsedSchema where
  name : String
  schema : Val
  description : Option Val
  properties : Val
  required_fields : Val
  schema_type : Val
deriving Repr

/-- Embeds `ParsedSchema.__init__`. -/
def ParsedSchema.make (name : String) (schema : Val) (description : Option Val) :
    ParsedSchema :=
  { name := name
    schema := schema
    description := description
    properties := schema.getD "properties" (Val.obj [])
    required_fields := schema.getD "required" (Val.arr [])
    schema_type := schema.getD "type" (Val.str "object") }

/-- Embeds `ParsedSchema.table_name`: lowercase, normalize `-`/` ` to `_`, and
append `s` unless the name already ends with `s`. -/
def ParsedSchema.table_name (s : ParsedSchema) : String :=
  let name := pyReplace (pyReplace (pyLower s.name) "-" "_") " " "_"
  if !(pyEndsWith name "s") then name ++ "s" else name

/-- Embeds `ParsedSchema.get_property_type`: the declared-(type, format) →
implementation-type mapping table. -/
def ParsedSchema.get_property_type (s : ParsedSchema) (prop_name : String) :
    String :=
  let prop := (s.properties.get? prop_name).getD (Val.obj [])
  match prop.get? "type" with
  | some (Val.str "string") =>
    match prop.get? "format" with
    | some (Val.str "date-time") => "datetime"
    | some (Val.str "date") => "date"
    | some (Val.str "email") => "str"
    | _ => "str"
  | some (Val.str "integer") => "int"
  | some (Val.str "number") => "float"
  | some (Val.str "boolean") => "bool"
  | some (Val.str "array") =>
    let items := prop.getD "items" (Val.obj [])
    let item_type := items.getD "type" (Val.str "Any")
    "List[" ++ item_type.pystr ++ "]"
  | _ => "Any"

/-- Embeds `ParsedSchema.is_required`: membership of the property name in the
schema's `required` list. -/
def ParsedSchema.is_required (s : ParsedSchema) (prop_name : String) : Bool :=
  s.required_fields.asArr.any (fun v =>
    match v with
    | Val.str t => t == prop_name
    | _ => false)

/-- Embeds `ParsedSpec`: the fully parsed IR root (openapi.py lines 147–164). -/
structure ParsedSpec where
  info : Val
  endpoints : List ParsedEndpoint
  schemas : List ParsedSchema
  servers : Val
  security_schemes : Val
  tags : Val
deriving Repr

/-- The seven recognized HTTP verbs, in the order the source iterates them
(openapi.py line 266). -/
def http_methods : List String :=
  ["get", "post", "put", "patch", "delete", "head", "options"]

/-- Embeds `path_item.get("parameters", [])`: the path-level parameter list of a
path item (openapi.py line 263). -/
def path_level_params (path_item : Val) : List Val :=
  (path_item.getD "parameters" (Val.arr [])).asArr

/-- The body of the verb loop in `OpenAPIParser._parse_endpoints`
(openapi.py lines 270–287): build one `ParsedEndpoint` from an operation
found under `method` in its path item. -/
def build_endpoint (path : String) (global_params : List Val)
    (method : String) (operation : Val) : ParsedEndpoint :=
  ParsedEndpoint.make path method
    (match operation.get? "operationId" with
     | some (Val.str s) => s
     | _ => "")
    (operation.get? "summary")
    (operation.get? "description")
    (some (global_params ++ (operation.getD "parameters" (Val.arr [])).asArr))
    (operation.get? "requestBody")
    (some (operation.getD "responses" (Val.obj [])))
    (some (operation.getD "tags" (Val.arr [])))
    (some (operation.getD "security" (Val.arr [])))

/-- Embeds `OpenAPIParser._parse_endpoints` (openapi.py lines 253–291): for each
entry of `paths` in document order, for each of the seven verbs present as a
key of the path item, build one endpoint whose parameter list is the
path-level list followed by the operation-level list.  A document value of
`None` (`self.spec_data is None`) yields no endpoints. -/
def parse_endpoints (spec_data : Option Val) : List ParsedEndpoint :=
  match spec_data with
  | none => []
  | some d =>
    let paths := d.getD "paths" (Val.obj [])
    paths.items.flatMap (fun pe =>
      let global_params := path_level_params pe.2
      http_methods.filterMap (fun method =>
        (pe.2.get? method).map (fun operation =>
          build_endpoint pe.1 global_params method operation)))

/-- Embeds `OpenAPIParser._parse_schemas` (openapi.py lines 293–310). -/
def parse_schemas (spec_data : Option Val) : List ParsedSchema :=
  match spec_data with
  | none => []
  | some d =>
    let components := d.getD "components" (Val.obj [])
    let schema_definitions := components.getD "schemas" (Val.obj [])
    schema_definitions.items.map (fun nv =>
      ParsedSchema.make nv.1 nv.2 (nv.2.get? "description"))

/-- Embeds `OpenAPIParser._parse_info` (openapi.py lines 247–251). -/
def parse_info (spec_data : Option Val) : Val :=
  match spec_data with
  | none => Val.obj []
  | some d => d.getD "info" (Val.obj [])

/-- Embeds `OpenAPIParser._parse_servers` (openapi.py lines 312–316). -/
def parse_servers (spec_data : Option Val) : Val :=
  match spec_data with
  | none => Val.arr []
  | some d => d.getD "servers" (Val.arr [])

/-- Embeds `OpenAPIParser._parse_security_schemes` (openapi.py lines 318–323). -/
def parse_security_schemes (spec_data : Option Val) : Val :=
  match spec_data with
  | none => Val.obj []
  | some d => (d.getD "components" (Val.obj [])).getD "securitySchemes" (Val.obj [])

/-- Embeds `OpenAPIParser._parse_tags` (openapi.py lines 325–329). -/
def parse_tags (spec_data : Option Val) : Val :=
  match spec_data with
  | none => Val.arr []
  | some d => d.getD "tags" (Val.arr [])

/-- The IR-building tail of `OpenAPIParser.parse` (openapi.py lines
230–245): assemble the `ParsedSpec` from the six sub-walks. -/
def build (spec_data : Option Val) : ParsedSpec :=
  { info := parse_info spec_data
    endpoints := parse_endpoints spec_data
    schemas := parse_schemas spec_data
    servers := parse_servers spec_data
    security_schemes := parse_security_schemes spec_data
    tags := parse_tags spec_data }

/-- The load phase of `OpenAPIParser.parse` (openapi.py lines 214–225).
`suffix` is `spec_path.suffix` (the extension, dot included); `readYaml` /
`readJson` are the outcomes of opening and deserializing the file with the
respective strategy (external I/O).  The whole strategy selection, the
`raise ValueError(f"Unsupported file format: ...")` included, runs inside
the `try` whose handler re-raises every `Exception e` as
`ValueError(f"Failed to load specification file: {e}")`. -/
def load_spec (suffix : String) (readYaml readJson : Except String Val) :
    Except String Val :=
  let body : Except String Val :=
    if pyLower suffix = ".yaml" ∨ pyLower suffix = ".yml" then readYaml
    else if pyLower suffix = ".json" then readJson
    else Except.error ("Unsupported file format: " ++ suffix)
  match body with
  | Except.ok v => Except.ok v
  | Except.error e =>
      Except.error ("Failed to load specification file: " ++ e)

/-- Embeds `OpenAPIParser.validate` (openapi.py lines 204–210).  `collaborator` is
the combined outcome of the external `read_from_filename` call followed by
`validate_spec` — any exception either of them raises, file-read failures
included, reaches the single `except` clause. -/
def validate (collaborator : Except String Unit) : Except String Unit :=
  match collaborator with
  | Except.ok _ => Except.ok ()
  | Except.error e =>
      Except.error ("Invalid OpenAPI specification: " ++ e)

/-- Embeds `OpenAPIParser.parse` (openapi.py lines 212–245): load by extension,
validate, then build the IR. -/
def parse (suffix : String) (readYaml readJson : Except String Val)
    (collaborator : Except String Unit) : Except String ParsedSpec :=
  match load_spec suffix readYaml readJson with
  | Except.error e => Except.error e
  | Except.ok spec_data =>
    match validate collaborator with
    | Except.error e => Except.error e
    | Except.ok _ => Except.ok (build (some spec_data))

/-! Shared lemmas. -/

/-- A `filterMap` keeps exactly the elements on which the function is `some`. -/
theorem length_filterMap_isSome {α β : Type} (f : α → Option β) (l : List α) :
    (l.filterMap f).length = (l.filter (fun a => (f a).isSome)).length := by
  induction l with
  | nil => rfl
  | cons a t ih =>
    cases h : f a <;>
      simp [List.filterMap_cons, List.filter_cons, h, ih]

/-! Claims. -/

/-- C1 (counterexample): for the extension `.txt`, `parse` does NOT surface
the `Unsupported file format` error verbatim: the raise sits inside the
`try` whose handler wraps every exception in the
`Failed to load specification file:` message — the same wrapper a read
failure receives (third conjunct) — so it is not distinct from the
load-error wrapping. -/
theorem c1_counterexample :
    parse ".txt" (Except.ok Val.null) (Except.ok Val.null) (Except.ok ())
      = Except.error "Failed to load specification file: Unsupported file format: .txt"
    ∧ ("Failed to load specification file: Unsupported file format: .txt" : String)
        ≠ "Unsupported file format: .txt"
    ∧ parse ".yaml" (Except.error "boom") (Except.ok Val.null) (Except.ok ())
      = Except.error "Failed to load specification file: boom" :=
  ⟨rfl, by decide, rfl⟩

/-- C1 (amended): for every input path whose extension (lower-cased) is
neither `.yaml`/`.yml` nor `.json`, `parse` fails with an error whose
message is the load-failure wrapper around the `UnsupportedFormat` text
naming the extension — the unsupported-format raise is intercepted by the
same handler that wraps read and deserialization failures. -/
theorem c1_unsupported_format_wrapped (suffix : String)
    (readYaml readJson : Except String Val) (collaborator : Except String Unit)
    (h : pyLower suffix ∉ ([".yaml", ".yml", ".json"] : List String)) :
    parse suffix readYaml readJson collaborator
      = Except.error
          ("Failed to load specification file: Unsupported file format: " ++ suffix) := by
  simp only [List.mem_cons, List.mem_singleton, List.not_mem_nil, or_false,
    not_or] at h
  obtain ⟨h1, h2, h3⟩ := h
  unfold parse load_spec
  rw [if_neg (not_or.mpr ⟨h1, h2⟩), if_neg h3]
  show Except.error
      ("Failed to load specification file: " ++ ("Unsupported file format: " ++ suffix))
    = _
  rw [← String.append_assoc]
  rfl

/-- C1 (witness for the amended claim). -/
theorem c1_witness :
    parse ".txt" (Except.ok (Val.obj [])) (Except.ok (Val.obj [])) (Except.ok ())
      = Except.error
          ("Failed to load specification file: Unsupported file format: " ++ ".txt") :=
  c1_unsupported_format_wrapped ".txt" _ _ _ (by decide)

/-- C2: for every raw document, the number of endpoints produced equals the
number of (path, verb) pairs where the verb is one of the seven recognized
verbs and is present as a key in that path item's mapping; no other key of
a path item contributes an endpoint. -/
theorem c2_endpoint_count (d : Val) :
    (parse_endpoints (some d)).length =
      (((d.getD "paths" (Val.obj [])).items).map (fun pe =>
        (http_methods.filter (fun m => (pe.2.get? m).isSome)).length)).sum := by
  unfold parse_endpoints
  rw [List.length_flatMap]
  refine congrArg List.sum (List.map_congr_left fun pe _ => ?_)
  simp only [Function.comp_apply, length_filterMap_isSome, Option.isSome_map']

/-- C3: an endpoint built from a path item with path-level parameters and an
operation with operation-level parameters carries exactly the path-level
list followed by the operation-level list, in order, with no
de-duplication. -/
theorem c3_parameter_order (path method : String) (path_item operation : Val)
    (pl ol : List Val)
    (hp : path_item.get? "parameters" = some (Val.arr pl))
    (ho : operation.get? "parameters" = some (Val.arr ol)) :
    (build_endpoint path (path_level_params path_item) method operation).parameters
      = pl ++ ol := by
  simp [build_endpoint, ParsedEndpoint.make, path_level_params, Val.getD, hp, ho,
    Val.asArr]

/-- C3 (witness): path-level `[A, B]` and operation-level `[C]` yield
exactly `[A, B, C]`. -/
theorem c3_witness :
    (build_endpoint "/items"
        (path_level_params (Val.obj [("parameters", Val.arr [Val.str "A", Val.str "B"])]))
        "get" (Val.obj [("parameters", Val.arr [Val.str "C"])])).parameters
      = [Val.str "A", Val.str "B", Val.str "C"] :=
  c3_parameter_order "/items" "get"
    (Val.obj [("parameters", Val.arr [Val.str "A", Val.str "B"])])
    (Val.obj [("parameters", Val.arr [Val.str "C"])])
    [Val.str "A", Val.str "B"] [Val.str "C"] rfl rfl

/-- C4: the derived implementation identifier is the lower-cased,
hyphen-to-underscore `operationId` when non-empty, else the lower-cased
method joined by `_` to the underscore-joined path segments that are
non-empty and are not `\x7b...\x7d` placeholders; in particular GET
`/items/\x7bitem_id\x7d` with empty operationId derives `get_items`. -/
theorem c4_function_name :
    (∀ e : ParsedEndpoint,
      e.function_name =
        if e.operation_id = "" then
          pyLower e.method ++ "_" ++ pyJoin "_"
            ((pySplit e.path '/').filter
              (fun p => !(p == "") && !(pyStartsWith p "\x7b")))
        else pyReplace (pyLower e.operation_id) "-" "_")
    ∧ (ParsedEndpoint.make "/items/\x7bitem_id\x7d" "get" "" none none none
        none none none none).function_name = "get_items" := by
  constructor
  · intro e
    by_cases h : e.operation_id = "" <;>
      simp [ParsedEndpoint.function_name, h]
  · rfl

/-- C6: the derived table identifier is the lower-cased name with `-` and
` ` normalized to `_`, with `s` appended unless the normalized name already
ends in `s`; `item` gives `items` and `items` stays `items`. -/
theorem c6_table_name :
    (∀ s : ParsedSchema,
      s.table_name =
        (if pyEndsWith (pyReplace (pyReplace (pyLower s.name) "-" "_") " " "_") "s" then
          pyReplace (pyReplace (pyLower s.name) "-" "_") " " "_"
        else pyReplace (pyReplace (pyLower s.name) "-" "_") " " "_" ++ "s"))
    ∧ (ParsedSchema.make "item" (Val.obj []) none).table_name = "items"
    ∧ (ParsedSchema.make "items" (Val.obj []) none).table_name = "items" := by
  refine ⟨fun s => ?_, rfl, rfl⟩
  cases h : pyEndsWith (pyReplace (pyReplace (pyLower s.name) "-" "_") " " "_") "s" <;>
    simp [ParsedSchema.table_name, h]

/-- C7: every optional section that is absent from a well-formed document
mapping yields an empty collection from the corresponding (total) sub-walk
of the builder, not an error. -/
theorem c7_missing_sections_default (kvs : List (String × Val)) :
    (alookup kvs "paths" = none →
      parse_endpoints (some (Val.obj kvs)) = [])
    ∧ (((Val.obj kvs).getD "components" (Val.obj [])).get? "schemas" = none →
      parse_schemas (some (Val.obj kvs)) = [])
    ∧ (alookup kvs "servers" = none →
      parse_servers (some (Val.obj kvs)) = Val.arr [])
    ∧ (((Val.obj kvs).getD "components" (Val.obj [])).get? "securitySchemes" = none →
      parse_security_schemes (some (Val.obj kvs)) = Val.obj [])
    ∧ (alookup kvs "tags" = none →
      parse_tags (some (Val.obj kvs)) = Val.arr []) := by
  refine ⟨fun h => ?_, fun h => ?_, fun h => ?_, fun h => ?_, fun h => ?_⟩
  · simp [parse_endpoints, Val.getD, Val.get?, h, Val.items]
  · simp only [Val.getD] at h
    simp [parse_schemas, Val.getD, h, Val.items]
  · simp [parse_servers, Val.getD, Val.get?, h]
  · simp only [Val.getD] at h
    simp [parse_security_schemes, Val.getD, h]
  · simp [parse_tags, Val.getD, Val.get?, h]

/-- C7 (witness): a document with only an `info` key parses to empty
endpoint, schema, server, security-scheme and tag collections. -/
theorem c7_witness :
    parse_endpoints (some (Val.obj [("info", Val.obj [])])) = []
    ∧ parse_schemas (some (Val.obj [("info", Val.obj [])])) = []
    ∧ parse_servers (some (Val.obj [("info", Val.obj [])])) = Val.arr []
    ∧ parse_security_schemes (some (Val.obj [("info", Val.obj [])])) = Val.obj []
    ∧ parse_tags (some (Val.obj [("info", Val.obj [])])) = Val.arr [] := by
  obtain ⟨h1, h2, h3, h4, h5⟩ := c7_missing_sections_default [("info", Val.obj [])]
  exact ⟨h1 rfl, h2 rfl, h3 rfl, h4 rfl, h5 rfl⟩

/-- C8: every endpoint the builder materializes has a method in the fixed
uppercased verb set, and comes from a path item that does contain the
corresponding lowercase verb as a key. -/
theorem c8_method_invariant (d : Val) (e : ParsedEndpoint)
    (h : e ∈ parse_endpoints (some d)) :
    e.method ∈ (["GET", "POST", "PUT", "PATCH", "DELETE", "HEAD", "OPTIONS"] : List String)
    ∧ ∃ pe ∈ (d.getD "paths" (Val.obj [])).items,
        e.path = pe.1 ∧ (pe.2.get? (pyLower e.method)).isSome = true := by
  unfold parse_endpoints at h
  rw [List.mem_flatMap] at h
  obtain ⟨pe, hpe, hin⟩ := h
  rw [List.mem_filterMap] at hin
  obtain ⟨m, hm, hf⟩ := hin
  rw [Option.map_eq_some'] at hf
  obtain ⟨op, hop, rfl⟩ := hf
  simp only [http_methods, List.mem_cons, List.mem_singleton,
    List.not_mem_nil, or_false] at hm
  rcases hm with rfl | rfl | rfl | rfl | rfl | rfl | rfl
  · exact ⟨by show ("GET" : String) ∈
        (["GET", "POST", "PUT", "PATCH", "DELETE", "HEAD", "OPTIONS"] : List String); decide,
      pe, hpe, rfl, by show (pe.2.get? "get").isSome = true; rw [hop]; rfl⟩
  · exact ⟨by show ("POST" : String) ∈
        (["GET", "POST", "PUT", "PATCH", "DELETE", "HEAD", "OPTIONS"] : List String); decide,
      pe, hpe, rfl, by show (pe.2.get? "post").isSome = true; rw [hop]; rfl⟩
  · exact ⟨by show ("PUT" : String) ∈
        (["GET", "POST", "PUT", "PATCH", "DELETE", "HEAD", "OPTIONS"] : List String); decide,
      pe, hpe, rfl, by show (pe.2.get? "put").isSome = true; rw [hop]; rfl⟩
  · exact ⟨by show ("PATCH" : String) ∈
        (["GET", "POST", "PUT", "PATCH", "DELETE", "HEAD", "OPTIONS"] : List String); decide,
      pe, hpe, rfl, by show (pe.2.get? "patch").isSome = true; rw [hop]; rfl⟩
  · exact ⟨by show ("DELETE" : String) ∈
        (["GET", "POST", "PUT", "PATCH", "DELETE", "HEAD", "OPTIONS"] : List String); decide,
      pe, hpe, rfl, by show (pe.2.get? "delete").isSome = true; rw [hop]; rfl⟩
  · exact ⟨by show ("HEAD" : String) ∈
        (["GET", "POST", "PUT", "PATCH", "DELETE", "HEAD", "OPTIONS"] : List String); decide,
      pe, hpe, rfl, by show (pe.2.get? "head").isSome = true; rw [hop]; rfl⟩
  · exact ⟨by show ("OPTIONS" : String) ∈
        (["GET", "POST", "PUT", "PATCH", "DELETE", "HEAD", "OPTIONS"] : List String); decide,
      pe, hpe, rfl, by show (pe.2.get? "options").isSome = true; rw [hop]; rfl⟩

/-- C8 (witness). -/
theorem c8_witness :
    (build_endpoint "/health" [] "get" (Val.obj [])).method
      ∈ (["GET", "POST", "PUT", "PATCH", "DELETE", "HEAD", "OPTIONS"] : List String) :=
  (c8_method_invariant
    (Val.obj [("paths", Val.obj [("/health", Val.obj [("get", Val.obj [])])])])
    (build_endpoint "/health" [] "get" (Val.obj []))
    (List.Mem.head _)).1

/-- C5: for every property present in a schema's properties mapping, the
derived property type follows the fixed mapping table — `string`/`date-time`
to `datetime`, `string`/`date` to `date`, `string` with any other or no
format to `str`, `integer` to `int`, `number` to `float`, `boolean` to
`bool`, `array` to `List[...]` of the declared item type with the untyped
sentinel `Any` when the item type is absent, and any other or absent
declared type to `Any` — never an error. -/
theorem c5_property_type_table (s : ParsedSchema) (pn : String) (prop : Val)
    (h : s.properties.get? pn = some prop) :
    (prop.get? "type" = some (Val.str "string") →
       (prop.get? "format" = some (Val.str "date-time") →
          s.get_property_type pn = "datetime")
       ∧ (prop.get? "format" = some (Val.str "date") →
          s.get_property_type pn = "date")
       ∧ ((∀ t, prop.get? "format" = some (Val.str t) →
            t ∉ (["date-time", "date"] : List String)) →
          s.get_property_type pn = "str"))
    ∧ (prop.get? "type" = some (Val.str "integer") →
        s.get_property_type pn = "int")
    ∧ (prop.get? "type" = some (Val.str "number") →
        s.get_property_type pn = "float")
    ∧ (prop.get? "type" = some (Val.str "boolean") →
        s.get_property_type pn = "bool")
    ∧ (prop.get? "type" = some (Val.str "array") →
       (∀ t, (prop.getD "items" (Val.obj [])).get? "type" = some (Val.str t) →
          s.get_property_type pn = "List[" ++ t ++ "]")
       ∧ ((prop.getD "items" (Val.obj [])).get? "type" = none →
          s.get_property_type pn = "List[Any]"))
    ∧ ((∀ t, prop.get? "type" = some (Val.str t) →
          t ∉ (["string", "integer", "number", "boolean", "array"] : List String)) →
       s.get_property_type pn = "Any") := by
  refine ⟨fun ht => ⟨fun hf => ?_, fun hf => ?_, fun hother => ?_⟩,
    fun ht => ?_, fun ht => ?_, fun ht => ?_,
    fun ht => ⟨fun t hit => ?_, fun hit => ?_⟩, fun hother => ?_⟩
  · simp only [ParsedSchema.get_property_type, h, Option.getD_some, ht, hf]
  · simp only [ParsedSchema.get_property_type, h, Option.getD_some, ht, hf]
  · simp only [ParsedSchema.get_property_type, h, Option.getD_some, ht]
    split
    · rename_i heq
      exact absurd (by decide) (hother "date-time" heq)
    · rename_i heq
      exact absurd (by decide) (hother "date" heq)
    · rfl
    · rfl
  · simp only [ParsedSchema.get_property_type, h, Option.getD_some, ht]
  · simp only [ParsedSchema.get_property_type, h, Option.getD_some, ht]
  · simp only [ParsedSchema.get_property_type, h, Option.getD_some, ht]
  · simp only [Val.getD] at hit
    simp only [ParsedSchema.get_property_type, h, Option.getD_some, ht,
      Val.getD, hit, Val.pystr]
  · simp only [Val.getD] at hit
    simp only [ParsedSchema.get_property_type, h, Option.getD_some, ht,
      Val.getD, hit, Option.getD_none, Val.pystr]
    rfl
  · simp only [ParsedSchema.get_property_type, h, Option.getD_some]
    split
    · rename_i heq
      exact absurd (by decide) (hother "string" heq)
    · rename_i heq
      exact absurd (by decide) (hother "integer" heq)
    · rename_i heq
      exact absurd (by decide) (hother "number" heq)
    · rename_i heq
      exact absurd (by decide) (hother "boolean" heq)
    · rename_i heq
      exact absurd (by decide) (hother "array" heq)
    · rfl

/-- C5 (witness): `string`/`date-time` derives `datetime`; an unlisted
declared type derives the untyped sentinel `Any`. -/
theorem c5_witness :
    (ParsedSchema.make "m"
      (Val.obj [("properties", Val.obj [("a",
        Val.obj [("type", Val.str "string"), ("format", Val.str "date-time")])])])
      none).get_property_type "a" = "datetime"
    ∧ (ParsedSchema.make "m"
      (Val.obj [("properties", Val.obj [("b",
        Val.obj [("type", Val.str "weird")])])])
      none).get_property_type "b" = "Any" := by
  constructor
  · exact ((c5_property_type_table
      (ParsedSchema.make "m"
        (Val.obj [("properties", Val.obj [("a",
          Val.obj [("type", Val.str "string"), ("format", Val.str "date-time")])])])
        none) "a"
      (Val.obj [("type", Val.str "string"), ("format", Val.str "date-time")])
      rfl).1 rfl).1 rfl
  · refine (c5_property_type_table
      (ParsedSchema.make "m"
        (Val.obj [("properties", Val.obj [("b",
          Val.obj [("type", Val.str "weird")])])])
        none) "b"
      (Val.obj [("type", Val.str "weird")]) rfl).2.2.2.2.2 ?_
    intro t ht
    have h0 : (Val.obj [("type", Val.str "weird")]).get? "type"
        = some (Val.str "weird") := rfl
    rw [h0] at ht
    injection ht with ht
    injection ht with ht
    subst ht
    decide

/-- C9: looking up the property type of a name that is not a key of the
schema's properties mapping returns the untyped sentinel `Any`; the
derivation is total. -/
theorem c9_total_property_type (s : ParsedSchema) (pn : String)
    (h : s.properties.get? pn = none) :
    s.get_property_type pn = "Any" := by
  unfold ParsedSchema.get_property_type
  rw [h]
  rfl

/-- C9 (witness). -/
theorem c9_witness :
    (ParsedSchema.make "x" (Val.obj []) none).get_property_type "foo" = "Any" :=
  c9_total_property_type (ParsedSchema.make "x" (Val.obj []) none) "foo" rfl

/-- C10: `validate` wraps every failure of the external read/validation
collaborators — read failures of the standalone check included — into the
single error whose message begins `Invalid OpenAPI specification:`. -/
theorem c10_validate_wraps_all_failures (err : String) :
    validate (Except.error err)
      = Except.error ("Invalid OpenAPI specification: " ++ err)
    ∧ ∃ rest, "Invalid OpenAPI specification: " ++ err
        = "Invalid OpenAPI specification:" ++ rest := by
  refine ⟨rfl, " " ++ err, ?_⟩
  rw [← String.append_assoc]
  rfl

end SpineAPI
